import Mathlib

/-!
Verification of the flightradar24 telemetry-ingestion plugin
(`shinysdr/plugins/flightradar24/__init__.py`).

The embedding models:
* raw feed values (JSON scalars) as `RawVal`, with Python truthiness;
* a raw aircraft record as a fixed-arity positional record (`RawRecord`);
* the telemetry data model (`TelemetryItem`, `Track`, `FlightInfo`);
* the per-aircraft state (`Aircraft`) with its `receive` merge,
  `is_interesting` predicate and `get_object_expiry` computation;
* the feed dispatch pass of `_Flightradar24Client.__send_request`;
* the enable/disable state machine of `_Flightradar24Client`.

Python operations that can raise (multiplying a non-number, adding to
`None`) are modelled with `Except`/`Option`; a raised exception leaves
the mutable state unchanged, which the embedding reflects by returning
`Except.error` without producing a new state.
-/

/-- A loosely-typed scalar value from the JSON feed: `null` is Python
`None` (JSON `null`), `num` a number (modelled as an exact rational),
`str` a string. -/
inductive RawVal : Type where
  | null : RawVal
  | num : ℚ → RawVal
  | str : String → RawVal
deriving DecidableEq

/-- Python truthiness of a feed value: `None`, `0` and `""` are falsy,
everything else is truthy. -/
def RawVal.truthy : RawVal → Bool
  | RawVal.null => false
  | RawVal.num q => decide (q ≠ 0)
  | RawVal.str s => decide (s ≠ "")

/-- One raw aircraft record: a fixed-position array of 18 loosely-typed
fields, as read by `Aircraft.receive` (`d[0]` .. `d[17]`). -/
def RawRecord : Type := Fin 18 → RawVal

/-- Source constant `_SECONDS_PER_HOUR = 60 * 60`. -/
def SECONDS_PER_HOUR : ℚ := 60 * 60

/-- Source constant `_METERS_PER_NAUTICAL_MILE = 1852`. -/
def METERS_PER_NAUTICAL_MILE : ℚ := 1852

/-- Source constant `_KNOTS_TO_METERS_PER_SECOND`. -/
def KNOTS_TO_METERS_PER_SECOND : ℚ := METERS_PER_NAUTICAL_MILE / SECONDS_PER_HOUR

/-- Source constant `_CM_PER_INCH = 2.54`. -/
def CM_PER_INCH : ℚ := 254 / 100

/-- Source constant `_INCH_PER_FOOT = 12`. -/
def INCH_PER_FOOT : ℚ := 12

/-- Source constant `_METERS_PER_FEET = (2.54 * 12) / 100`. -/
def METERS_PER_FEET : ℚ := (CM_PER_INCH * INCH_PER_FOOT) / 100

/-- Source constant `_FEET_PER_MINUTE_TO_METERS_PER_SECOND = _METERS_PER_FEET * 60`
(note: the source multiplies by 60; it does not divide). -/
def FEET_PER_MINUTE_TO_METERS_PER_SECOND : ℚ := METERS_PER_FEET * 60

/-- Source constant `drop_unheard_timeout_seconds = 60`. -/
def drop_unheard_timeout_seconds : ℚ := 60

/-- Modelled from the spec: `TelemetryItem` from `shinysdr.telemetry`
(that module is not part of the supplied sources): a (value, timestamp)
pair; a null value means "no information". -/
structure TelemetryItem : Type where
  value : RawVal
  timestamp : RawVal
deriving DecidableEq

/-- Modelled from the spec: `Track` from `shinysdr.telemetry`: a record
of seven telemetry fields, each a `TelemetryItem`, with keyword-update
(`_replace`) semantics. -/
structure Track : Type where
  latitude : TelemetryItem
  longitude : TelemetryItem
  altitude : TelemetryItem
  heading : TelemetryItem
  track_angle : TelemetryItem
  h_speed : TelemetryItem
  v_speed : TelemetryItem
deriving DecidableEq

/-- Modelled from the spec: `empty_track` from `shinysdr.telemetry`: all
fields at their empty default, a `TelemetryItem` with null value and null
timestamp. -/
def empty_track : Track :=
  { latitude := ⟨RawVal.null, RawVal.null⟩
    longitude := ⟨RawVal.null, RawVal.null⟩
    altitude := ⟨RawVal.null, RawVal.null⟩
    heading := ⟨RawVal.null, RawVal.null⟩
    track_angle := ⟨RawVal.null, RawVal.null⟩
    h_speed := ⟨RawVal.null, RawVal.null⟩
    v_speed := ⟨RawVal.null, RawVal.null⟩ }

/-- The `FlightInfo` namedtuple of the plugin: seven loosely-typed
fields stored verbatim from the raw record. -/
structure FlightInfo : Type where
  callsign : RawVal
  registration : RawVal
  origin : RawVal
  destination : RawVal
  flight : RawVal
  squawk_code : RawVal
  model : RawVal
deriving DecidableEq

/-- Source `empty_flight_info`: all seven fields `None`. -/
def empty_flight_info : FlightInfo :=
  ⟨RawVal.null, RawVal.null, RawVal.null, RawVal.null, RawVal.null, RawVal.null, RawVal.null⟩

/-- The mutable state of one `Aircraft` telemetry object:
`__last_heard_time`, `__track`, `__flight_info`. -/
structure Aircraft : Type where
  last_heard_time : RawVal
  track : Track
  flight_info : FlightInfo
deriving DecidableEq

/-- `Aircraft.__init__`: last-heard `None`, empty track, empty flight
info (the object id is not stored). -/
def Aircraft.initial : Aircraft :=
  { last_heard_time := RawVal.null
    track := empty_track
    flight_info := empty_flight_info }

/-- Python multiplication `v * c` of a feed value by a float constant:
defined for numbers, a `TypeError` (modelled as `Except.error`) for
anything else. -/
def pyMul : RawVal → ℚ → Except Unit RawVal
  | RawVal.num q, c => Except.ok (RawVal.num (q * c))
  | _, _ => Except.error ()

/-- The conversion step applied to one numeric raw field inside
`Aircraft.receive`: if the raw value is falsy the field contributes no
update (`none`); otherwise it is multiplied by the conversion constant,
which raises for a truthy non-number. -/
def conv (v : RawVal) (c : ℚ) : Except Unit (Option RawVal) :=
  if v.truthy then Except.map some (pyMul v c) else Except.ok none

/-- The state update performed by `Aircraft.receive` once the three
unit conversions have succeeded: `a`, `hs`, `v` are the converted
altitude, horizontal-speed and vertical-speed contributions (`none`
when the raw field was falsy).  Mirrors the source line by line:
the sparse `new` dict applied to `__track` via `_replace`, then
`__last_heard_time = d[10]` and the wholesale `FlightInfo`
replacement. -/
def Aircraft.applyRecord (s : Aircraft) (d : RawRecord)
    (a hs v : Option RawVal) : Aircraft :=
  let timestamp := d 10
  let t0 := s.track
  let t1 := if (d 1).truthy && (d 2).truthy then
      { t0 with latitude := ⟨d 1, timestamp⟩, longitude := ⟨d 2, timestamp⟩ }
    else t0
  let t2 := match a with
    | some x => { t1 with altitude := ⟨x, timestamp⟩ }
    | none => t1
  let t3 := match hs with
    | some x => { t2 with h_speed := ⟨x, timestamp⟩ }
    | none => t2
  let t4 := if (d 3).truthy then
      { t3 with heading := ⟨d 3, timestamp⟩, track_angle := ⟨d 3, timestamp⟩ }
    else t3
  let t5 := match v with
    | some x => { t4 with v_speed := ⟨x, timestamp⟩ }
    | none => t4
  { last_heard_time := timestamp
    track := t5
    flight_info :=
      { callsign := d 16
        registration := d 9
        origin := d 11
        destination := d 12
        flight := d 13
        squawk_code := d 6
        model := d 8 } }

/-- `Aircraft.receive(message_wrapper)`: merge one raw record.  The
three possible `TypeError`s (altitude `d[4] * _METERS_PER_FEET`, speed
`d[5] * _KNOTS_TO_METERS_PER_SECOND`, rate of climb
`d[15] * _FEET_PER_MINUTE_TO_METERS_PER_SECOND`) abort the merge before
any state is assigned, so an error leaves the object unchanged. -/
def Aircraft.receive (s : Aircraft) (d : RawRecord) : Except Unit Aircraft :=
  match conv (d 4) METERS_PER_FEET,
      conv (d 5) KNOTS_TO_METERS_PER_SECOND,
      conv (d 15) FEET_PER_MINUTE_TO_METERS_PER_SECOND with
  | Except.ok a, Except.ok hs, Except.ok v =>
      Except.ok (Aircraft.applyRecord s d a hs v)
  | Except.error e, _, _ => Except.error e
  | _, Except.error e, _ => Except.error e
  | _, _, Except.error e => Except.error e

/-- The state after a successful `receive`, or the unchanged state when
`receive` raises (Python leaves the object untouched in that case). -/
def Aircraft.receiveD (s : Aircraft) (d : RawRecord) : Aircraft :=
  match Aircraft.receive s d with
  | Except.ok s' => s'
  | Except.error _ => s

/-- `Aircraft.is_interesting()`: true iff the track's latitude or
longitude value, or the flight info's callsign or registration, is not
`None`. -/
def Aircraft.is_interesting (s : Aircraft) : Bool :=
  decide (s.track.latitude.value ≠ RawVal.null) ||
  decide (s.track.longitude.value ≠ RawVal.null) ||
  decide (s.flight_info.callsign ≠ RawVal.null) ||
  decide (s.flight_info.registration ≠ RawVal.null)

/-- `Aircraft.get_object_expiry()`: `__last_heard_time +
drop_unheard_timeout_seconds`.  Adding `60` to a non-number
(in particular to the initial `None`) raises, modelled as `none`. -/
def Aircraft.get_object_expiry (s : Aircraft) : Option ℚ :=
  match s.last_heard_time with
  | RawVal.num q => some (q + drop_unheard_timeout_seconds)
  | _ => none

/-- The aircraft states reachable through the telemetry store: a fresh
object (from `Aircraft.__init__`) followed by any sequence of
successful `receive` merges. -/
inductive Aircraft.Reachable : Aircraft → Prop
  | init : Aircraft.Reachable Aircraft.initial
  | step {s s' : Aircraft} {d : RawRecord} :
      Aircraft.Reachable s → Aircraft.receive s d = Except.ok s' →
      Aircraft.Reachable s'

/-- A JSON value in the parsed feed response: either an array (a raw
aircraft record, kept as a plain list here because dispatch does not
inspect it) or any non-array value, which `__send_request` skips via
`isinstance(aircraft, list)`. -/
inductive JsonValue : Type where
  | arr : List RawVal → JsonValue
  | nonArray : JsonValue
deriving DecidableEq

/-- The dispatch loop of `_Flightradar24Client.__send_request.process`:
iterate over the parsed response's entries in order; skip non-array
values; for each array-valued entry invoke the sink
(`output_message(AircraftWrapper(object_id, aircraft))`).  `throws`
says whether the sink raises on a given entry.  There is no per-record
exception handler, so a raised exception propagates out of the loop to
the deferred's errback.  Returns the list of entries for which the sink
was invoked (in order, the raising one last) and whether an exception
aborted the pass. -/
def processFeed (throws : String → List RawVal → Bool) :
    List (String × JsonValue) → List (String × List RawVal) × Bool
  | [] => ([], false)
  | (_, JsonValue.nonArray) :: rest => processFeed throws rest
  | (oid, JsonValue.arr r) :: rest =>
      if throws oid r then ([(oid, r)], true)
      else
        let p := processFeed throws rest
        ((oid, r) :: p.1, p.2)

/-- The array-valued entries of a feed response, in order: the records
a full (error-free) dispatch pass would hand to the sink. -/
def arrayEntries : List (String × JsonValue) → List (String × List RawVal)
  | [] => []
  | (_, JsonValue.nonArray) :: rest => arrayEntries rest
  | (oid, JsonValue.arr r) :: rest => (oid, r) :: arrayEntries rest

/-- The polling-control state of `_Flightradar24Client`: whether
`self.__loop` is set, plus an accounting of how many `LoopingCall`
timers have been started and not stopped (to state the one-timer
invariant). -/
structure ClientState : Type where
  loopActive : Bool
  activeTimers : Nat
deriving DecidableEq

/-- `_Flightradar24Client.__init__`: `self.__loop = None`, no timer
running. -/
def ClientState.initial : ClientState :=
  { loopActive := false, activeTimers := 0 }

/-- `_Flightradar24Client.set_enabled(enabled)`: start a `LoopingCall`
when enabling from the stopped state, stop it when disabling from the
running state, and otherwise do nothing. -/
def ClientState.set_enabled (s : ClientState) (enabled : Bool) : ClientState :=
  if enabled && !s.loopActive then
    { loopActive := true, activeTimers := s.activeTimers + 1 }
  else if !enabled && s.loopActive then
    { loopActive := false, activeTimers := s.activeTimers - 1 }
  else s

/-- `_Flightradar24Client.close()`: stop the loop if one is running. -/
def ClientState.close (s : ClientState) : ClientState :=
  if s.loopActive then
    { loopActive := false, activeTimers := s.activeTimers - 1 }
  else s

/-- Client control states reachable from construction through any
sequence of `set_enabled` and `close` calls. -/
inductive ClientState.Reachable : ClientState → Prop
  | init : ClientState.Reachable ClientState.initial
  | enable {s : ClientState} {b : Bool} :
      ClientState.Reachable s → ClientState.Reachable (s.set_enabled b)
  | shut {s : ClientState} :
      ClientState.Reachable s → ClientState.Reachable s.close

/-! ### Helper lemmas about the merge step -/

theorem RawVal.truthy_ne_null {v : RawVal} (h : v.truthy = true) : v ≠ RawVal.null := by
  intro hv
  subst hv
  simp [RawVal.truthy] at h

theorem conv_of_falsy {v : RawVal} {c : ℚ} (h : v.truthy = false) :
    conv v c = Except.ok none := by
  simp [conv, h]

theorem conv_ok_none_falsy {v : RawVal} {c : ℚ}
    (h : conv v c = Except.ok none) : v.truthy = false := by
  by_contra hb
  rw [Bool.not_eq_false] at hb
  cases v with
  | null => simp [RawVal.truthy] at hb
  | num q => simp [conv, hb, pyMul, Except.map] at h
  | str s => simp [conv, hb, pyMul, Except.map] at h

theorem conv_of_num {q : ℚ} {c : ℚ} (hq : q ≠ 0) :
    conv (RawVal.num q) c = Except.ok (some (RawVal.num (q * c))) := by
  simp [conv, RawVal.truthy, hq, pyMul, Except.map]

theorem receive_ok_elim {s s' : Aircraft} {d : RawRecord}
    (h : Aircraft.receive s d = Except.ok s') :
    ∃ a hs v : Option RawVal,
      conv (d 4) METERS_PER_FEET = Except.ok a ∧
      conv (d 5) KNOTS_TO_METERS_PER_SECOND = Except.ok hs ∧
      conv (d 15) FEET_PER_MINUTE_TO_METERS_PER_SECOND = Except.ok v ∧
      s' = Aircraft.applyRecord s d a hs v := by
  unfold Aircraft.receive at h
  cases hA : conv (d 4) METERS_PER_FEET with
  | error e => rw [hA] at h; exact absurd h (by simp)
  | ok a =>
    cases hH : conv (d 5) KNOTS_TO_METERS_PER_SECOND with
    | error e => rw [hA, hH] at h; exact absurd h (by simp)
    | ok hs =>
      cases hV : conv (d 15) FEET_PER_MINUTE_TO_METERS_PER_SECOND with
      | error e => rw [hA, hH, hV] at h; exact absurd h (by simp)
      | ok v =>
        rw [hA, hH, hV] at h
        simp at h
        exact ⟨a, hs, v, rfl, rfl, rfl, h.symm⟩

theorem applyRecord_last_heard (s : Aircraft) (d : RawRecord) (a hs v : Option RawVal) :
    (Aircraft.applyRecord s d a hs v).last_heard_time = d 10 := rfl

theorem applyRecord_flight_info (s : Aircraft) (d : RawRecord) (a hs v : Option RawVal) :
    (Aircraft.applyRecord s d a hs v).flight_info =
      ⟨d 16, d 9, d 11, d 12, d 13, d 6, d 8⟩ := rfl

theorem applyRecord_latitude (s : Aircraft) (d : RawRecord) (a hs v : Option RawVal) :
    (Aircraft.applyRecord s d a hs v).track.latitude =
      if (d 1).truthy && (d 2).truthy then ⟨d 1, d 10⟩ else s.track.latitude := by
  cases a <;> cases hs <;> cases v <;>
    simp only [Aircraft.applyRecord] <;> split <;> split <;> rfl

theorem applyRecord_longitude (s : Aircraft) (d : RawRecord) (a hs v : Option RawVal) :
    (Aircraft.applyRecord s d a hs v).track.longitude =
      if (d 1).truthy && (d 2).truthy then ⟨d 2, d 10⟩ else s.track.longitude := by
  cases a <;> cases hs <;> cases v <;>
    simp only [Aircraft.applyRecord] <;> split <;> split <;> rfl

theorem applyRecord_heading (s : Aircraft) (d : RawRecord) (a hs v : Option RawVal) :
    (Aircraft.applyRecord s d a hs v).track.heading =
      if (d 3).truthy then ⟨d 3, d 10⟩ else s.track.heading := by
  cases a <;> cases hs <;> cases v <;>
    simp only [Aircraft.applyRecord] <;> split <;> split <;> rfl

theorem applyRecord_track_angle (s : Aircraft) (d : RawRecord) (a hs v : Option RawVal) :
    (Aircraft.applyRecord s d a hs v).track.track_angle =
      if (d 3).truthy then ⟨d 3, d 10⟩ else s.track.track_angle := by
  cases a <;> cases hs <;> cases v <;>
    simp only [Aircraft.applyRecord] <;> split <;> split <;> rfl

theorem applyRecord_altitude (s : Aircraft) (d : RawRecord) (a hs v : Option RawVal) :
    (Aircraft.applyRecord s d a hs v).track.altitude =
      (match a with
        | some x => ⟨x, d 10⟩
        | none => s.track.altitude) := by
  cases a <;> cases hs <;> cases v <;>
    simp only [Aircraft.applyRecord] <;> split <;> split <;> rfl

theorem applyRecord_h_speed (s : Aircraft) (d : RawRecord) (a hs v : Option RawVal) :
    (Aircraft.applyRecord s d a hs v).track.h_speed =
      (match hs with
        | some x => ⟨x, d 10⟩
        | none => s.track.h_speed) := by
  cases a <;> cases hs <;> cases v <;>
    simp only [Aircraft.applyRecord] <;> split <;> split <;> rfl

theorem applyRecord_v_speed (s : Aircraft) (d : RawRecord) (a hs v : Option RawVal) :
    (Aircraft.applyRecord s d a hs v).track.v_speed =
      (match v with
        | some x => ⟨x, d 10⟩
        | none => s.track.v_speed) := by
  cases a <;> cases hs <;> cases v <;>
    simp only [Aircraft.applyRecord] <;> split <;> split <;> rfl

/-! ### Concrete records used as inputs -/

/-- A record with every field null (all falsy). -/
def recNull : RawRecord := fun _ => RawVal.null

/-- A record whose only truthy field is a rate of climb of 1 ft/min at
index 15. -/
def recRoc1 : RawRecord := fun i => if i = 15 then RawVal.num 1 else RawVal.null

/-- A record with a truthy latitude at index 1 and a falsy (null)
longitude at index 2; everything else null. -/
def recLatOnly : RawRecord := fun i => if i = 1 then RawVal.num 40 else RawVal.null

/-- A record with truthy latitude, longitude and timestamp only. -/
def recLatLon : RawRecord := fun i =>
  if i = 1 then RawVal.num 40
  else if i = 2 then RawVal.num (-70)
  else if i = 10 then RawVal.num 100
  else RawVal.null

/-- A record whose only truthy field is the callsign at index 16. -/
def recCallsign : RawRecord := fun i =>
  if i = 16 then RawVal.str "UAL1" else RawVal.null

/-! ### Claim theorems -/

/-- C1: evaluating the merge at a record whose rate of climb is 1 ft/min.
The altitude (× 0.3048) and horizontal-speed (× 1852/3600) conversions
are as the claim states, but the merged `v_speed` is
`1 * _FEET_PER_MINUTE_TO_METERS_PER_SECOND = 18.288`, not the claimed
`1 * 0.00508`: the source sets that constant to `0.3048 * 60` where the
conversion its name describes is `0.3048 / 60`. -/
theorem fr24_C1_roc_eval :
    (Aircraft.receive Aircraft.initial recRoc1).isOk = true ∧
    (Aircraft.receiveD Aircraft.initial recRoc1).track.v_speed.value =
      RawVal.num ((1 : ℚ) * FEET_PER_MINUTE_TO_METERS_PER_SECOND) ∧
    (1 : ℚ) * FEET_PER_MINUTE_TO_METERS_PER_SECOND = 18.288 ∧
    (1 : ℚ) * 0.00508 = 0.00508 ∧
    (18.288 : ℚ) ≠ 0.00508 ∧
    METERS_PER_FEET = 0.3048 ∧
    KNOTS_TO_METERS_PER_SECOND = 1852 / 3600 := by
  refine ⟨rfl, rfl, ?_, ?_, ?_, ?_, ?_⟩ <;>
    norm_num [FEET_PER_MINUTE_TO_METERS_PER_SECOND, METERS_PER_FEET, CM_PER_INCH,
      INCH_PER_FOOT, KNOTS_TO_METERS_PER_SECOND, METERS_PER_NAUTICAL_MILE, SECONDS_PER_HOUR]

/-- C2 counterexample: a record whose latitude (index 1) is truthy but
whose longitude (index 2) is falsy does not update the latitude field at
all — the merge succeeds, yet the latitude value is still null.  This
refutes the claim that each Track-mapped field with a truthy raw value
is updated independently of the other indices. -/
theorem fr24_C2_counterexample :
    (recLatOnly 1).truthy = true ∧
    (Aircraft.receive Aircraft.initial recLatOnly).isOk = true ∧
    (Aircraft.receiveD Aircraft.initial recLatOnly).track.latitude.value = RawVal.null :=
  ⟨rfl, rfl, rfl⟩

/-- C2 (amended): altitude, heading, track-angle, h_speed and v_speed
are each updated independently iff their own raw value is truthy (with
the source's conversion constants); latitude and longitude are updated
together, and only when both raw values are truthy in the same
record. -/
theorem fr24_C2_amended (s s' : Aircraft) (d : RawRecord)
    (h : Aircraft.receive s d = Except.ok s') :
    (s'.track.latitude =
      if (d 1).truthy && (d 2).truthy then ⟨d 1, d 10⟩ else s.track.latitude) ∧
    (s'.track.longitude =
      if (d 1).truthy && (d 2).truthy then ⟨d 2, d 10⟩ else s.track.longitude) ∧
    (s'.track.heading = if (d 3).truthy then ⟨d 3, d 10⟩ else s.track.heading) ∧
    (s'.track.track_angle = if (d 3).truthy then ⟨d 3, d 10⟩ else s.track.track_angle) ∧
    (∀ q : ℚ, d 4 = RawVal.num q → q ≠ 0 →
      s'.track.altitude = ⟨RawVal.num (q * METERS_PER_FEET), d 10⟩) ∧
    (∀ q : ℚ, d 5 = RawVal.num q → q ≠ 0 →
      s'.track.h_speed = ⟨RawVal.num (q * KNOTS_TO_METERS_PER_SECOND), d 10⟩) ∧
    (∀ q : ℚ, d 15 = RawVal.num q → q ≠ 0 →
      s'.track.v_speed = ⟨RawVal.num (q * FEET_PER_MINUTE_TO_METERS_PER_SECOND), d 10⟩) := by
  obtain ⟨a, hs, v, hA, hH, hV, rfl⟩ := receive_ok_elim h
  refine ⟨applyRecord_latitude s d a hs v, applyRecord_longitude s d a hs v,
    applyRecord_heading s d a hs v, applyRecord_track_angle s d a hs v, ?_, ?_, ?_⟩
  · intro q hq hq0
    rw [hq, conv_of_num hq0] at hA
    injection hA with hA
    subst hA
    rw [applyRecord_altitude]
  · intro q hq hq0
    rw [hq, conv_of_num hq0] at hH
    injection hH with hH
    subst hH
    rw [applyRecord_h_speed]
  · intro q hq hq0
    rw [hq, conv_of_num hq0] at hV
    injection hV with hV
    subst hV
    rw [applyRecord_v_speed]

/-- Witness for C2 (amended) at a record carrying latitude 40 and
longitude -70 with timestamp 100, merged into a fresh aircraft. -/
theorem fr24_C2_amended_witness :
    (Aircraft.receiveD Aircraft.initial recLatLon).track.latitude =
      (if (recLatLon 1).truthy && (recLatLon 2).truthy then ⟨recLatLon 1, recLatLon 10⟩
        else Aircraft.initial.track.latitude) ∧
    (Aircraft.receiveD Aircraft.initial recLatLon).track.longitude =
      (if (recLatLon 1).truthy && (recLatLon 2).truthy then ⟨recLatLon 2, recLatLon 10⟩
        else Aircraft.initial.track.longitude) :=
  ⟨(fr24_C2_amended Aircraft.initial (Aircraft.receiveD Aircraft.initial recLatLon)
      recLatLon rfl).1,
   (fr24_C2_amended Aircraft.initial (Aircraft.receiveD Aircraft.initial recLatLon)
      recLatLon rfl).2.1⟩

/-- An aircraft state whose track already carries a position (as left by
a previous merge of latitude 40 / longitude -70 at timestamp 100). -/
def aLat : Aircraft :=
  { Aircraft.initial with
    track := { empty_track with
      latitude := ⟨RawVal.num 40, RawVal.num 100⟩
      longitude := ⟨RawVal.num (-70), RawVal.num 100⟩ } }

/-- An aircraft state whose flight info already carries a callsign. -/
def aCS : Aircraft :=
  { Aircraft.initial with
    flight_info := { empty_flight_info with callsign := RawVal.str "UAL1" } }

/-- C3 counterexample: a first merge whose only truthy field is the
callsign makes `is_interesting()` true, and a second merge of an
all-null record makes it false again — FlightInfo is replaced wholesale,
so interestingness obtained from the callsign alone does not persist.
This refutes the claim that once true it remains true after every later
merge. -/
theorem fr24_C3_counterexample :
    (Aircraft.receive Aircraft.initial recCallsign).isOk = true ∧
    (Aircraft.receiveD Aircraft.initial recCallsign).is_interesting = true ∧
    (Aircraft.receive (Aircraft.receiveD Aircraft.initial recCallsign) recNull).isOk = true ∧
    (Aircraft.receiveD (Aircraft.receiveD Aircraft.initial recCallsign) recNull).is_interesting
      = false := by
  decide

/-- C3 (amended): `is_interesting()` becomes true at the first merge
that makes any of the four fields non-null (see C7), and it persists
across later merges whenever it holds because of the track's position:
a non-null track latitude stays non-null through every successful merge
and keeps `is_interesting()` true.  Interestingness coming only from
callsign/registration need not persist, since FlightInfo is replaced
wholesale by every merge. -/
theorem fr24_C3_amended (s s' : Aircraft) (d : RawRecord)
    (h : Aircraft.receive s d = Except.ok s')
    (hlat : s.track.latitude.value ≠ RawVal.null) :
    s'.track.latitude.value ≠ RawVal.null ∧ s'.is_interesting = true := by
  obtain ⟨a, hs, v, hA, hH, hV, rfl⟩ := receive_ok_elim h
  have hne : (Aircraft.applyRecord s d a hs v).track.latitude.value ≠ RawVal.null := by
    rw [applyRecord_latitude]
    split
    case isTrue hc =>
      rw [Bool.and_eq_true] at hc
      exact RawVal.truthy_ne_null hc.1
    case isFalse hc => exact hlat
  refine ⟨hne, ?_⟩
  simp only [Aircraft.is_interesting, Bool.or_eq_true, decide_eq_true_eq]
  exact Or.inl (Or.inl (Or.inl hne))

/-- Witness for C3 (amended): merging an all-null record into a state
that already has a position keeps it interesting. -/
theorem fr24_C3_amended_witness :
    (Aircraft.receiveD aLat recNull).track.latitude.value ≠ RawVal.null ∧
    (Aircraft.receiveD aLat recNull).is_interesting = true :=
  fr24_C3_amended aLat (Aircraft.receiveD aLat recNull) recNull rfl (by decide)

/-- C5: every successful merge replaces FlightInfo wholesale with the
record's values at indices 16, 9, 11, 12, 13, 6, 8 (verbatim, null
allowed) regardless of the prior FlightInfo, and sets the last-heard
time to the record's value at index 10. -/
theorem fr24_C5 (s s' : Aircraft) (d : RawRecord)
    (h : Aircraft.receive s d = Except.ok s') :
    s'.flight_info =
      { callsign := d 16, registration := d 9, origin := d 11, destination := d 12,
        flight := d 13, squawk_code := d 6, model := d 8 } ∧
    s'.last_heard_time = d 10 := by
  obtain ⟨a, hs, v, -, -, -, rfl⟩ := receive_ok_elim h
  exact ⟨applyRecord_flight_info s d a hs v, applyRecord_last_heard s d a hs v⟩

/-- Witness for C5: a record carrying only position data, merged into a
state with a previously-set callsign — the callsign is nulled out and
last-heard becomes the record's timestamp. -/
theorem fr24_C5_witness :
    (Aircraft.receiveD aCS recLatLon).flight_info =
      { callsign := recLatLon 16, registration := recLatLon 9, origin := recLatLon 11,
        destination := recLatLon 12, flight := recLatLon 13, squawk_code := recLatLon 6,
        model := recLatLon 8 } ∧
    (Aircraft.receiveD aCS recLatLon).last_heard_time = recLatLon 10 :=
  fr24_C5 aCS (Aircraft.receiveD aCS recLatLon) recLatLon rfl

/-- C6: for every successful merge and every Track-mapped field, a falsy
raw value at that field's index (latitude 1, longitude 2, altitude 4,
heading/track-angle 3, h_speed 5, v_speed 15) leaves that field's
TelemetryItem exactly as it was. -/
theorem fr24_C6 (s s' : Aircraft) (d : RawRecord)
    (h : Aircraft.receive s d = Except.ok s') :
    ((d 1).truthy = false → s'.track.latitude = s.track.latitude) ∧
    ((d 2).truthy = false → s'.track.longitude = s.track.longitude) ∧
    ((d 4).truthy = false → s'.track.altitude = s.track.altitude) ∧
    ((d 3).truthy = false → s'.track.heading = s.track.heading) ∧
    ((d 3).truthy = false → s'.track.track_angle = s.track.track_angle) ∧
    ((d 5).truthy = false → s'.track.h_speed = s.track.h_speed) ∧
    ((d 15).truthy = false → s'.track.v_speed = s.track.v_speed) := by
  obtain ⟨a, hs, v, hA, hH, hV, rfl⟩ := receive_ok_elim h
  refine ⟨?_, ?_, ?_, ?_, ?_, ?_, ?_⟩
  · intro hf
    simp [applyRecord_latitude s d a hs v, hf]
  · intro hf
    simp [applyRecord_longitude s d a hs v, hf]
  · intro hf
    rw [conv_of_falsy hf] at hA
    injection hA with hA
    subst hA
    rw [applyRecord_altitude]
  · intro hf
    simp [applyRecord_heading s d a hs v, hf]
  · intro hf
    simp [applyRecord_track_angle s d a hs v, hf]
  · intro hf
    rw [conv_of_falsy hf] at hH
    injection hH with hH
    subst hH
    rw [applyRecord_h_speed]
  · intro hf
    rw [conv_of_falsy hf] at hV
    injection hV with hV
    subst hV
    rw [applyRecord_v_speed]

/-- Witness for C6: merging the all-null record into a state with a
position leaves every track field unchanged. -/
theorem fr24_C6_witness :
    (Aircraft.receiveD aLat recNull).track.latitude = aLat.track.latitude ∧
    (Aircraft.receiveD aLat recNull).track.longitude = aLat.track.longitude ∧
    (Aircraft.receiveD aLat recNull).track.altitude = aLat.track.altitude ∧
    (Aircraft.receiveD aLat recNull).track.heading = aLat.track.heading ∧
    (Aircraft.receiveD aLat recNull).track.track_angle = aLat.track.track_angle ∧
    (Aircraft.receiveD aLat recNull).track.h_speed = aLat.track.h_speed ∧
    (Aircraft.receiveD aLat recNull).track.v_speed = aLat.track.v_speed := by
  have h := fr24_C6 aLat (Aircraft.receiveD aLat recNull) recNull rfl
  exact ⟨h.1 rfl, h.2.1 rfl, h.2.2.1 rfl, h.2.2.2.1 rfl, h.2.2.2.2.1 rfl,
    h.2.2.2.2.2.1 rfl, h.2.2.2.2.2.2 rfl⟩

/-- C7: in every state, `is_interesting()` is true iff at least one of
the track's latitude value, the track's longitude value, the flight
info's callsign, or the flight info's registration is non-null. -/
theorem fr24_C7 (s : Aircraft) :
    s.is_interesting = true ↔
      (s.track.latitude.value ≠ RawVal.null ∨ s.track.longitude.value ≠ RawVal.null ∨
        s.flight_info.callsign ≠ RawVal.null ∨ s.flight_info.registration ≠ RawVal.null) := by
  simp [Aircraft.is_interesting, Bool.or_eq_true, decide_eq_true_eq, or_assoc]

/-- C8: after any successful merge of a record whose timestamp field
(index 10) is the number `q`, `get_object_expiry()` returns exactly
`q + 60`. -/
theorem fr24_C8 (s s' : Aircraft) (d : RawRecord) (q : ℚ)
    (h : Aircraft.receive s d = Except.ok s') (ht : d 10 = RawVal.num q) :
    Aircraft.get_object_expiry s' = some (q + 60) := by
  obtain ⟨a, hs, v, -, -, -, rfl⟩ := receive_ok_elim h
  simp [Aircraft.get_object_expiry, applyRecord_last_heard, ht,
    drop_unheard_timeout_seconds]

/-- Witness for C8: a merge with timestamp 100 gives expiry 100 + 60. -/
theorem fr24_C8_witness :
    Aircraft.get_object_expiry (Aircraft.receiveD Aircraft.initial recLatLon) =
      some (100 + 60) :=
  fr24_C8 Aircraft.initial (Aircraft.receiveD Aircraft.initial recLatLon) recLatLon 100 rfl rfl

/-- The sink behaviour used in the C4 scenarios: the per-record consumer
raises exactly on the entry with object id "bad". -/
def throwsOnBad : String → List RawVal → Bool := fun oid _ => oid == "bad"

/-- The parsed feed response used in the C4 counterexample: a raising
record followed by a well-behaved one. -/
def entriesC4 : List (String × JsonValue) :=
  [("bad", JsonValue.arr []), ("good", JsonValue.arr [RawVal.num 1])]

/-- C4 counterexample: when the sink raises on the first array-valued
entry, the second array-valued entry of the same response is never
dispatched — the loop has no per-record exception handling, so the
error aborts the pass (and is then caught by the deferred's errback).
This refutes the claim that every other record in the batch is still
dispatched. -/
theorem fr24_C4_counterexample :
    (processFeed throwsOnBad entriesC4).1 = [("bad", [])] ∧
    ("good", [RawVal.num 1]) ∈ arrayEntries entriesC4 ∧
    ("good", [RawVal.num 1]) ∉ (processFeed throwsOnBad entriesC4).1 ∧
    (processFeed throwsOnBad entriesC4).2 = true := by
  decide

/-- C4 (amended): an error raised by the sink aborts the dispatch pass:
the entries before the failing one are dispatched (non-array entries
skipped), the failing entry is the last one handed to the sink, and the
remaining entries of the same response are not dispatched; the raised
error is reported to the errback rather than propagating further. -/
theorem fr24_C4_amended (throws : String → List RawVal → Bool)
    (pre post : List (String × JsonValue)) (oid : String) (r : List RawVal)
    (hpre : ∀ p rec, (p, JsonValue.arr rec) ∈ pre → throws p rec = false)
    (hbad : throws oid r = true) :
    processFeed throws (pre ++ (oid, JsonValue.arr r) :: post) =
      (arrayEntries pre ++ [(oid, r)], true) := by
  revert hpre
  induction pre with
  | nil =>
    intro _
    simp [processFeed, hbad, arrayEntries]
  | cons e rest ih =>
    intro hpre
    obtain ⟨p, jv⟩ := e
    cases jv with
    | nonArray =>
      simp only [List.cons_append, processFeed, arrayEntries]
      exact ih (fun p' rec' hm => hpre p' rec' (List.mem_cons_of_mem _ hm))
    | arr rec =>
      have hth : throws p rec = false := hpre p rec (List.mem_cons_self _ _)
      simp only [List.cons_append, processFeed, arrayEntries, hth, Bool.false_eq_true,
        if_false, List.append_eq]
      rw [ih (fun p' rec' hm => hpre p' rec' (List.mem_cons_of_mem _ hm))]

/-- Witness for C4 (amended): a response with a skipped non-array entry,
then a raising record, then one more record; only the records up to and
including the raising one reach the sink. -/
theorem fr24_C4_amended_witness :
    processFeed throwsOnBad
        ([("meta", JsonValue.nonArray)] ++
          ("bad", JsonValue.arr []) :: [("good", JsonValue.arr [RawVal.num 1])]) =
      (arrayEntries [("meta", JsonValue.nonArray)] ++ [("bad", [])], true) :=
  fr24_C4_amended throwsOnBad [("meta", JsonValue.nonArray)]
    [("good", JsonValue.arr [RawVal.num 1])] "bad" []
    (by intro p rec hm; simp at hm) rfl

/-- Every reachable client state holds exactly as many live polling
timers as `self.__loop` references: one while enabled, zero while
disabled. -/
theorem client_timer_invariant (s : ClientState) (h : ClientState.Reachable s) :
    s.activeTimers = if s.loopActive then 1 else 0 := by
  induction h with
  | init => rfl
  | @enable s' b hr ih =>
    cases b <;> cases hl : s'.loopActive <;>
      simp_all [ClientState.set_enabled]
  | @shut s' hr ih =>
    cases hl : s'.loopActive <;> simp_all [ClientState.close]

/-- C9: in every reachable client state, `set_enabled` and `close` are
idempotent (enabling while running and disabling while stopped are
no-ops), `close` forces the stopped state from any state and behaves
exactly like `set_enabled(false)`, enabling leaves exactly one active
timer, and there is never more than one active timer. -/
theorem fr24_C9 (s : ClientState) (h : ClientState.Reachable s) :
    ((s.set_enabled true).set_enabled true = s.set_enabled true) ∧
    (s.loopActive = true → s.set_enabled true = s) ∧
    ((s.set_enabled true).activeTimers = 1 ∧ (s.set_enabled true).loopActive = true) ∧
    ((s.set_enabled false).set_enabled false = s.set_enabled false) ∧
    (s.loopActive = false → s.set_enabled false = s) ∧
    (s.close.close = s.close) ∧
    (s.close.loopActive = false ∧ s.close.activeTimers = 0) ∧
    (s.close = s.set_enabled false) ∧
    (s.activeTimers = if s.loopActive then 1 else 0) := by
  have hinv := client_timer_invariant s h
  cases hl : s.loopActive <;>
    simp_all [ClientState.set_enabled, ClientState.close]

/-- Witness for C9 at the freshly constructed client. -/
theorem fr24_C9_witness :
    ((ClientState.initial.set_enabled true).set_enabled true
      = ClientState.initial.set_enabled true) ∧
    (ClientState.initial.set_enabled true).activeTimers = 1 ∧
    ClientState.initial.close.loopActive = false ∧
    ClientState.initial.activeTimers =
      (if ClientState.initial.loopActive then 1 else 0) :=
  ⟨(fr24_C9 ClientState.initial ClientState.Reachable.init).1,
   (fr24_C9 ClientState.initial ClientState.Reachable.init).2.2.1.1,
   (fr24_C9 ClientState.initial ClientState.Reachable.init).2.2.2.2.2.2.1.1,
   (fr24_C9 ClientState.initial ClientState.Reachable.init).2.2.2.2.2.2.2.2⟩

/-- Latitude and longitude of the track are null together in every
reachable aircraft state. -/
theorem latlon_null_invariant (s : Aircraft) (h : Aircraft.Reachable s) :
    (s.track.latitude.value = RawVal.null ↔ s.track.longitude.value = RawVal.null) := by
  induction h with
  | init => simp [Aircraft.initial, empty_track]
  | @step t1 t2 d hr hok ih =>
    obtain ⟨a, hs, v, -, -, -, rfl⟩ := receive_ok_elim hok
    by_cases hc : ((d 1).truthy && (d 2).truthy) = true
    · simp only [applyRecord_latitude t1 d a hs v, applyRecord_longitude t1 d a hs v,
        if_pos hc]
      rw [Bool.and_eq_true] at hc
      exact iff_of_false (RawVal.truthy_ne_null hc.1) (RawVal.truthy_ne_null hc.2)
    · rw [Bool.not_eq_true] at hc
      simp only [applyRecord_latitude t1 d a hs v, applyRecord_longitude t1 d a hs v,
        hc, Bool.false_eq_true, if_false]
      exact ih

/-- C10: in every reachable aircraft state the track's latitude value is
null iff its longitude value is null, and a merge changes either field
only when both raw values (indices 1 and 2) are truthy in the same
record. -/
theorem fr24_C10 (s : Aircraft) (h : Aircraft.Reachable s) :
    (s.track.latitude.value = RawVal.null ↔ s.track.longitude.value = RawVal.null) ∧
    (∀ (d : RawRecord) (s' : Aircraft), Aircraft.receive s d = Except.ok s' →
      (s'.track.latitude ≠ s.track.latitude ∨ s'.track.longitude ≠ s.track.longitude) →
      (d 1).truthy = true ∧ (d 2).truthy = true) := by
  refine ⟨latlon_null_invariant s h, ?_⟩
  intro d s' hok hne
  obtain ⟨a, hs, v, -, -, -, rfl⟩ := receive_ok_elim hok
  by_contra hcon
  rw [not_and_or] at hcon
  have hc : ((d 1).truthy && (d 2).truthy) = false := by
    rcases hcon with h1 | h1 <;> rw [Bool.not_eq_true] at h1 <;> simp [h1]
  rcases hne with hne | hne
  · exact hne (by simp [applyRecord_latitude s d a hs v, hc])
  · exact hne (by simp [applyRecord_longitude s d a hs v, hc])

/-- Witness for C10 at the initial (empty-track) state. -/
theorem fr24_C10_witness :
    (Aircraft.initial.track.latitude.value = RawVal.null ↔
      Aircraft.initial.track.longitude.value = RawVal.null) :=
  (fr24_C10 Aircraft.initial Aircraft.Reachable.init).1
